import Mathlib

/-!
Verification development for the buttplug device-communication subsystem.

The definitions below are a shallow embedding of three source components:

* `lovense_dongle_state_machine.rs` — the dongle session state machine.
  Each Rust state's `transition` method becomes a Lean function that
  consumes a script of `IncomingMessage`s (the merged arrival order at the
  `select!` points, as the spec's fair-select ordering guarantee allows)
  and returns the transition outcome together with the outputs, events and
  scanning-flag value it produced.  `unwrap()` on a closed outbound
  channel is modelled as the `panicked` outcome; closed inbound channels
  are modelled — exactly as `wait_for_input` does — by a `Disconnect`
  script entry.
* `xinput_device_comm_manager.rs` — the gamepad connection tracker and its
  polling loop, with the `u8` bitmap as a `Nat` (all stored values stay
  below 256; masks are taken against 255 explicitly).
* `magic_motion_v4.rs` — the vibrate command handler.  Its
  `GenericCommandManager` collaborator lives in a file that is not part of
  this source snapshot and is therefore modelled from the spec (see the
  doc comments marked "Modelled from the spec").
-/

/-! ## Lovense dongle message model

Modelled from the variants used by `lovense_dongle_state_machine.rs`
(`lovense_dongle_messages.rs` itself is not in the snapshot; field and
variant names follow the state machine's uses and spec §3). -/

inductive LovenseDongleMessageType where
  | Toy
  | USB
deriving DecidableEq, Repr

inductive LovenseDongleMessageFunc where
  | Statuss
  | IncomingStatus
  | Search
  | StopSearch
  | ToyData
deriving DecidableEq, Repr

inductive LovenseDongleResultCode where
  | DeviceConnectSuccess
  | DeviceDisconnected
  | SearchStopped
deriving DecidableEq, Repr

structure LovenseDongleIncomingData where
  id : Option String
  status : Option LovenseDongleResultCode
deriving DecidableEq, Repr

/-- Inbound dongle message: the state machine reads only `func`, `data`
and `result`. -/
structure LovenseDongleIncomingMessage where
  func : LovenseDongleMessageFunc
  data : Option LovenseDongleIncomingData
  result : Option LovenseDongleResultCode
deriving DecidableEq, Repr

structure LovenseDongleOutgoingMessage where
  func : LovenseDongleMessageFunc
  message_type : LovenseDongleMessageType
  id : Option String
  command : Option String
  eager : Option Nat
deriving DecidableEq, Repr

inductive OutgoingLovenseData where
  | Message (msg : LovenseDongleOutgoingMessage)
  | Raw (data : String)
deriving DecidableEq, Repr

/-- External commands. `DongleFound` carries the freshly discovered dongle
channel pair in Rust; channel open/closed status is ambient here
(`ChannelCtx`). -/
inductive LovenseDeviceCommand where
  | DongleFound
  | StartScanning
  | StopScanning
deriving DecidableEq, Repr

/-- Events emitted on the event channel.  `DeviceFound` carries a
`LovenseDongleDeviceImplCreator` built from the device id in Rust; the id
is what identifies it. -/
inductive DeviceCommunicationEvent where
  | DeviceFound (deviceId : String)
  | ScanningFinished
deriving DecidableEq, Repr

/-- `IncomingMessage` from the state machine file: the result of the
`select!` in `wait_for_input` / `wait_for_device_input`.  A closed
inbound channel surfaces as `Disconnect`. -/
inductive IncomingMessage where
  | CommMgr (msg : LovenseDeviceCommand)
  | Dongle (msg : LovenseDongleIncomingMessage)
  | Device (msg : OutgoingLovenseData)
  | Disconnect
deriving DecidableEq, Repr

/-! ## State machine embedding -/

/-- The live states of the machine (one `Box<dyn LovenseDongleState>` at a
time).  Device-bound states carry their `device_id`. -/
inductive MachineState where
  | waitForDongle
  | idle
  | startScanning
  | scanning
  | stopScanning
  | stopScanningAndConnect (deviceId : String)
  | deviceLoop (deviceId : String)
deriving DecidableEq, Repr

/-- Outcome of running one state's `transition` against a finite input
script: `next s` for `Some(next_state)`, `done` for `None`,
`blocked s` when the state would await input beyond the script, and
`panicked` for an `unwrap()` failure. -/
inductive Outcome where
  | next (s : MachineState)
  | done
  | blocked (s : MachineState)
  | panicked
deriving DecidableEq, Repr

/-- Open/closed status of the two outbound channels owned by the hub
(`dongle_outgoing` and `event_outgoing`). -/
structure ChannelCtx where
  dongleOutOpen : Bool
  eventOutOpen : Bool
deriving DecidableEq, Repr

def ctxOpen : ChannelCtx := ⟨true, true⟩

/-- Observable effects of a run: dongle writes (`send_output`), events
(`send_event`) and messages forwarded to the device's read channel
(`device_read_sender.send`), each in chronological order. -/
structure Effects where
  outputs : List OutgoingLovenseData
  events : List DeviceCommunicationEvent
  deviceReads : List LovenseDongleIncomingMessage
deriving DecidableEq, Repr

def Effects.empty : Effects := ⟨[], [], []⟩

def Effects.append (a b : Effects) : Effects :=
  ⟨a.outputs ++ b.outputs, a.events ++ b.events, a.deviceReads ++ b.deviceReads⟩

structure StepResult where
  outcome : Outcome
  isScanning : Bool
  rest : List IncomingMessage
  eff : Effects
deriving DecidableEq, Repr

/-- Prepend an output that was sent before the rest of the computation. -/
def StepResult.withOutput (r : StepResult) (o : OutgoingLovenseData) : StepResult :=
  { r with eff := { r.eff with outputs := o :: r.eff.outputs } }

def StepResult.withEvent (r : StepResult) (e : DeviceCommunicationEvent) : StepResult :=
  { r with eff := { r.eff with events := e :: r.eff.events } }

def StepResult.withDeviceRead (r : StepResult) (m : LovenseDongleIncomingMessage) : StepResult :=
  { r with eff := { r.eff with deviceReads := m :: r.eff.deviceReads } }

/-- `LovenseDongleWaitForDongle::transition`: loops on the comm-manager
channel with a local `should_scan` latch (freshly `false` on entry);
`DongleFound` builds the hub and moves to `StartScanning` or `Idle`;
channel closure (`Disconnect`) ends the machine (`None`).  The dongle and
device channels do not exist in this state, so a `Dongle`/`Device` script
entry leaves the run blocked (ill-formed script). -/
def waitForDongleTransition (flag : Bool) (shouldScan : Bool) :
    List IncomingMessage → StepResult
  | [] => ⟨.blocked .waitForDongle, flag, [], .empty⟩
  | inp :: rest =>
    match inp with
    | .CommMgr .DongleFound =>
      if shouldScan then ⟨.next .startScanning, flag, rest, .empty⟩
      else ⟨.next .idle, flag, rest, .empty⟩
    | .CommMgr .StartScanning => waitForDongleTransition flag true rest
    | .CommMgr .StopScanning => waitForDongleTransition flag false rest
    | .Disconnect => ⟨.done, flag, rest, .empty⟩
    | _ => ⟨.blocked .waitForDongle, flag, inp :: rest, .empty⟩

/-- The `Status`/`Toy` autoconnect probe sent on entering `Idle`
(`LovenseDongleMessageFunc::Statuss` in the source). -/
def autoconnectMsg : LovenseDongleOutgoingMessage :=
  ⟨.Statuss, .Toy, none, none, none⟩

/-- The input loop of `LovenseDongleIdle::transition`. -/
def idleLoop (flag : Bool) : List IncomingMessage → StepResult
  | [] => ⟨.blocked .idle, flag, [], .empty⟩
  | inp :: rest =>
    match inp with
    | .Dongle m =>
      match m.func with
      | .IncomingStatus =>
        match m.data with
        | some d =>
          if d.status = some .DeviceConnectSuccess then
            match d.id with
            | some devId => ⟨.next (.deviceLoop devId), flag, rest, .empty⟩
            | none => ⟨.panicked, flag, rest, .empty⟩
          else idleLoop flag rest
        | none => idleLoop flag rest
      | _ => idleLoop flag rest
    | .CommMgr .StartScanning => ⟨.next .startScanning, flag, rest, .empty⟩
    | .CommMgr .StopScanning => ⟨.next .stopScanning, flag, rest, .empty⟩
    | .CommMgr .DongleFound => idleLoop flag rest
    | .Disconnect => ⟨.next .waitForDongle, flag, rest, .empty⟩
    | .Device _ => idleLoop flag rest

/-- `LovenseDongleIdle::transition`: send the autoconnect probe (a
`send_output`, hence a panic if the dongle write channel is closed),
sleep 250 ms, then run the input loop. -/
def idleTransition (ctx : ChannelCtx) (flag : Bool)
    (inputs : List IncomingMessage) : StepResult :=
  if ctx.dongleOutOpen then
    (idleLoop flag inputs).withOutput (.Message autoconnectMsg)
  else
    ⟨.panicked, flag, inputs, .empty⟩

/-- The `Search`/`Toy` message sent by `LovenseDongleStartScanning`. -/
def searchMsg : LovenseDongleOutgoingMessage :=
  ⟨.Search, .Toy, none, none, none⟩

/-- `LovenseDongleStartScanning::transition`: `set_scanning_status(true)`,
then `send_output(Search/Toy)`, then unconditionally to `Scanning`.  The
flag is set before the send, so it is `true` even on the panic path. -/
def startScanningTransition (ctx : ChannelCtx) (_flag : Bool)
    (inputs : List IncomingMessage) : StepResult :=
  if ctx.dongleOutOpen then
    ⟨.next .scanning, true, inputs, ⟨[.Message searchMsg], [], []⟩⟩
  else
    ⟨.panicked, true, inputs, .empty⟩

/-- `LovenseDongleScanning::transition`: comm-manager input is logged and
dropped; `ToyData` with `data` moves to `StopScanningAndConnect` (with
`data.id.unwrap()`); `ToyData` with only `result` returns to `Idle`;
`Disconnect` rebuilds `WaitForDongle`.  Note that no path here touches
the scanning flag. -/
def scanningTransition (flag : Bool) : List IncomingMessage → StepResult
  | [] => ⟨.blocked .scanning, flag, [], .empty⟩
  | inp :: rest =>
    match inp with
    | .CommMgr _ => scanningTransition flag rest
    | .Dongle m =>
      match m.func with
      | .ToyData =>
        match m.data with
        | some d =>
          match d.id with
          | some devId => ⟨.next (.stopScanningAndConnect devId), flag, rest, .empty⟩
          | none => ⟨.panicked, flag, rest, .empty⟩
        | none =>
          if m.result.isSome then ⟨.next .idle, flag, rest, .empty⟩
          else scanningTransition flag rest
      | _ => scanningTransition flag rest
    | .Disconnect => ⟨.next .waitForDongle, flag, rest, .empty⟩
    | .Device _ => scanningTransition flag rest

/-- The `StopSearch`/`USB` message sent by `LovenseDongleStopScanning`
and `LovenseDongleStopScanningAndConnect`. -/
def stopSearchMsg : LovenseDongleOutgoingMessage :=
  ⟨.StopSearch, .USB, none, none, none⟩

/-- `LovenseDongleStopScanning::transition`: `send_output(StopSearch/USB)`;
`set_scanning_status(false)`; `send_event(ScanningFinished)`; terminate
(`None`).  Panics happen in that order on closed channels. -/
def stopScanningTransition (ctx : ChannelCtx) (flag : Bool)
    (inputs : List IncomingMessage) : StepResult :=
  if ctx.dongleOutOpen then
    if ctx.eventOutOpen then
      ⟨.done, false, inputs, ⟨[.Message stopSearchMsg], [.ScanningFinished], []⟩⟩
    else
      ⟨.panicked, false, inputs, ⟨[.Message stopSearchMsg], [], []⟩⟩
  else
    ⟨.panicked, flag, inputs, .empty⟩

/-- The ack-await loop of `LovenseDongleStopScanningAndConnect`: waits for
a `Search` message with `result == SearchStopped`, then clears the flag,
emits `ScanningFinished` and moves to `DeviceLoop`. -/
def sscLoop (ctx : ChannelCtx) (flag : Bool) (devId : String) :
    List IncomingMessage → StepResult
  | [] => ⟨.blocked (.stopScanningAndConnect devId), flag, [], .empty⟩
  | inp :: rest =>
    match inp with
    | .Dongle m =>
      match m.func with
      | .Search =>
        match m.result with
        | some r =>
          if r = .SearchStopped then
            if ctx.eventOutOpen then
              ⟨.next (.deviceLoop devId), false, rest, ⟨[], [.ScanningFinished], []⟩⟩
            else
              ⟨.panicked, false, rest, .empty⟩
          else sscLoop ctx flag devId rest
        | none => sscLoop ctx flag devId rest
      | _ => sscLoop ctx flag devId rest
    | .Disconnect => ⟨.next .waitForDongle, flag, rest, .empty⟩
    | _ => sscLoop ctx flag devId rest

/-- `LovenseDongleStopScanningAndConnect::transition`: send
`StopSearch`/`USB`, then run the ack-await loop. -/
def stopScanningAndConnectTransition (ctx : ChannelCtx) (flag : Bool)
    (devId : String) (inputs : List IncomingMessage) : StepResult :=
  if ctx.dongleOutOpen then
    (sscLoop ctx flag devId inputs).withOutput (.Message stopSearchMsg)
  else
    ⟨.panicked, flag, inputs, .empty⟩

/-- The three-way-select loop of `LovenseDongleDeviceLoop`.  The
device-read channel is created fresh inside this state and its receiver is
handed to the creator, so its `send(..).unwrap()` is modelled as a
recorded `deviceRead` (always open). -/
def deviceLoopLoop (ctx : ChannelCtx) (flag : Bool) (devId : String) :
    List IncomingMessage → StepResult
  | [] => ⟨.blocked (.deviceLoop devId), flag, [], .empty⟩
  | inp :: rest =>
    match inp with
    | .Device d =>
      if ctx.dongleOutOpen then (deviceLoopLoop ctx flag devId rest).withOutput d
      else ⟨.panicked, flag, rest, .empty⟩
    | .Dongle m =>
      match m.func with
      | .IncomingStatus =>
        match m.data with
        | some d =>
          if d.status = some .DeviceDisconnected then ⟨.next .idle, flag, rest, .empty⟩
          else deviceLoopLoop ctx flag devId rest
        | none => deviceLoopLoop ctx flag devId rest
      | _ => (deviceLoopLoop ctx flag devId rest).withDeviceRead m
    | .CommMgr .StartScanning =>
      if ctx.eventOutOpen then (deviceLoopLoop ctx flag devId rest).withEvent .ScanningFinished
      else ⟨.panicked, flag, rest, .empty⟩
    | .CommMgr .StopScanning =>
      if ctx.eventOutOpen then (deviceLoopLoop ctx flag devId rest).withEvent .ScanningFinished
      else ⟨.panicked, flag, rest, .empty⟩
    | .CommMgr .DongleFound => deviceLoopLoop ctx flag devId rest
    | .Disconnect => ⟨.next .waitForDongle, flag, rest, .empty⟩

/-- `LovenseDongleDeviceLoop::transition`: create the per-device channel
pair, emit `DeviceFound` for the device id, then run the select loop. -/
def deviceLoopTransition (ctx : ChannelCtx) (flag : Bool) (devId : String)
    (inputs : List IncomingMessage) : StepResult :=
  if ctx.eventOutOpen then
    (deviceLoopLoop ctx flag devId inputs).withEvent (.DeviceFound devId)
  else
    ⟨.panicked, flag, inputs, .empty⟩

/-- Dispatch one state's `transition`. -/
def transitionOf (ctx : ChannelCtx) (flag : Bool) :
    MachineState → List IncomingMessage → StepResult
  | .waitForDongle, inputs => waitForDongleTransition flag false inputs
  | .idle, inputs => idleTransition ctx flag inputs
  | .startScanning, inputs => startScanningTransition ctx flag inputs
  | .scanning, inputs => scanningTransition flag inputs
  | .stopScanning, inputs => stopScanningTransition ctx flag inputs
  | .stopScanningAndConnect devId, inputs => stopScanningAndConnectTransition ctx flag devId inputs
  | .deviceLoop devId, inputs => deviceLoopTransition ctx flag devId inputs

/-- The outer driver loop (`while let Some(next) = state.transition()`),
with fuel bounding the number of state transitions.  Running out of fuel
reports `blocked` at the pending state. -/
def run (ctx : ChannelCtx) : Nat → MachineState → Bool →
    List IncomingMessage → StepResult
  | 0, s, flag, inputs => ⟨.blocked s, flag, inputs, .empty⟩
  | fuel + 1, s, flag, inputs =>
    let r := transitionOf ctx flag s inputs
    match r.outcome with
    | .next s2 =>
      let r2 := run ctx fuel s2 r.isScanning r.rest
      ⟨r2.outcome, r2.isScanning, r2.rest, r.eff.append r2.eff⟩
    | _ => r

/-! ## XInput gamepad connection tracker (`xinput_device_comm_manager.rs`) -/

inductive XInputControllerIndex where
  | XInputController1
  | XInputController2
  | XInputController3
  | XInputController4
deriving DecidableEq, Repr

/-- `*index as u8`: the `#[repr(u8)]` discriminants 0..3. -/
def XInputControllerIndex.toU8 : XInputControllerIndex → Nat
  | .XInputController1 => 0
  | .XInputController2 => 1
  | .XInputController3 => 2
  | .XInputController4 => 3

/-- `index.to_string()`: the derived `Display` instance of a fieldless
enum renders the variant name. -/
def XInputControllerIndex.displayString : XInputControllerIndex → String
  | .XInputController1 => "XInputController1"
  | .XInputController2 => "XInputController2"
  | .XInputController3 => "XInputController3"
  | .XInputController4 => "XInputController4"

def create_address (index : XInputControllerIndex) : String :=
  index.displayString

/-- The tracker's two atomics: the `u8` bitmap of connected slots (kept
below 256) and the is-polling flag. -/
structure XInputConnectionTracker where
  connected_gamepads : Nat
  check_running : Bool
deriving DecidableEq, Repr

/-- Result of `add` / `add_with_sender`: the updated tracker and whether
the polling task was spawned. -/
structure AddResult where
  tracker : XInputConnectionTracker
  spawned : Bool
deriving DecidableEq, Repr

/-- `XInputConnectionTracker::add`: reads the bitmap, decides
`connected == 0 && !check_running`, sets the slot's bit, and spawns the
poller (without a sender) when the decision was true. -/
def XInputConnectionTracker.add (t : XInputConnectionTracker)
    (index : XInputControllerIndex) : AddResult :=
  let connected := t.connected_gamepads
  let should_start := connected == 0 && !t.check_running
  let connected2 := (connected ||| (1 <<< index.toU8)) % 256
  ⟨⟨connected2, t.check_running⟩, should_start⟩

/-- `XInputConnectionTracker::add_with_sender`: same as `add` except the
spawn decision is `connected == 0` alone — the `check_running` flag is
not consulted. -/
def XInputConnectionTracker.add_with_sender (t : XInputConnectionTracker)
    (index : XInputControllerIndex) : AddResult :=
  let connected := t.connected_gamepads
  let should_start := connected == 0
  let connected2 := (connected ||| (1 <<< index.toU8)) % 256
  ⟨⟨connected2, t.check_running⟩, should_start⟩

/-- `XInputConnectionTracker::connected`. -/
def XInputConnectionTracker.connected (t : XInputConnectionTracker)
    (index : XInputControllerIndex) : Bool :=
  t.connected_gamepads &&& (1 <<< index.toU8) > 0

/-- Events published by the poller on its broadcast sender. -/
inductive GamepadEvent where
  | Disconnected (address : String)
deriving DecidableEq, Repr

/-- The fixed iteration order of the poller's `for` loop. -/
def allIndices : List XInputControllerIndex :=
  [.XInputController1, .XInputController2, .XInputController3,
   .XInputController4]

structure SweepResult where
  stored : Nat
  events : List GamepadEvent
  earlyReturn : Bool
deriving DecidableEq, Repr

/-- One pass of the poller's `for` loop over the four slots.  `gamepads`
is the sweep-start snapshot; faithfully to the source, each cleared bit
is computed from that snapshot (`gamepads & !(1 << index)`), not from the
current stored value, and the result overwrites the atomic (`stored`).
`apiErr index = true` models `handle.get_state(index).is_err()`.  When a
cleared bit leaves the snapshot-derived bitmap zero, the function stores
`false` into `check_running` and returns (`earlyReturn`). -/
def checkSweep (apiErr : XInputControllerIndex → Bool) (hasSender : Bool)
    (gamepads : Nat) :
    List XInputControllerIndex → Nat → List GamepadEvent → SweepResult
  | [], stored, evs => ⟨stored, evs, false⟩
  | i :: restIdx, stored, evs =>
    if gamepads &&& (1 <<< i.toU8) == 0 then
      checkSweep apiErr hasSender gamepads restIdx stored evs
    else if apiErr i then
      let newCg := gamepads &&& (255 ^^^ (1 <<< i.toU8))
      let evs2 := if hasSender then evs ++ [.Disconnected (create_address i)]
                  else evs
      if newCg == 0 then ⟨newCg, evs2, true⟩
      else checkSweep apiErr hasSender gamepads restIdx newCg evs2
    else
      checkSweep apiErr hasSender gamepads restIdx stored evs

/-- Result of running the poller: final bitmap, final is-polling flag,
emitted events, and whether the function returned (as opposed to the fuel
running out while it was still looping). -/
structure PollerResult where
  connected_gamepads : Nat
  check_running : Bool
  events : List GamepadEvent
  exited : Bool
deriving DecidableEq, Repr

/-- The outer `loop` of `check_gamepad_connectivity`, sequential model
(the poller is the only mutator of the bitmap while it runs).  At each
iteration it snapshots the bitmap; a zero snapshot `break`s out — note
that this path returns with `check_running` still `true`.  `apiErr sweep
index` gives the gamepad API error outcome per sweep. -/
def checkLoop (apiErr : Nat → XInputControllerIndex → Bool)
    (hasSender : Bool) :
    Nat → Nat → Nat → List GamepadEvent → PollerResult
  | 0, _, stored, evs => ⟨stored, true, evs, false⟩
  | fuel + 1, sweepNo, stored, evs =>
    if stored == 0 then ⟨stored, true, evs, true⟩
    else
      let r := checkSweep (apiErr sweepNo) hasSender stored allIndices stored evs
      if r.earlyReturn then ⟨r.stored, false, r.events, true⟩
      else checkLoop apiErr hasSender fuel (sweepNo + 1) r.stored r.events

/-- `check_gamepad_connectivity`: stores `true` into `check_running`,
then runs the polling loop. -/
def check_gamepad_connectivity (apiErr : Nat → XInputControllerIndex → Bool)
    (hasSender : Bool) (fuel : Nat) (connected : Nat) : PollerResult :=
  checkLoop apiErr hasSender fuel 0 connected []

/-! ## MagicMotionV4 vibrate handler (`magic_motion_v4.rs`) -/

inductive Endpoint where
  | Tx
deriving DecidableEq, Repr

structure HardwareWriteCmd where
  endpoint : Endpoint
  data : List Nat
  write_with_response : Bool
deriving DecidableEq, Repr

/-- Modelled from the spec: the speed scale of the generic command
manager — "float [0.0,1.0] → integer 0..100 by truncation of
round(speed*100)" (spec §4.1).  Speeds are rationals here. -/
def speedToStep (speed : ℚ) : Nat :=
  (round (speed * 100)).toNat

/-- Modelled from the spec: the per-device `GenericCommandManager`
(`generic_command_manager.rs` is not in this snapshot).  It "records the
last committed speed per motor"; `none` at a position means no speed has
been committed for that motor yet.  The list length is the device's
declared motor count. -/
structure GenericCommandManager where
  vibrations : List (Option Nat)
deriving DecidableEq, Repr

/-- A manager for a device with `n` motors and no prior committed state. -/
def freshManager (n : Nat) : GenericCommandManager :=
  ⟨List.replicate n none⟩

structure VibrateSubcommand where
  index : Nat
  speed : ℚ
deriving DecidableEq, Repr

structure VibrateCmd where
  speeds : List VibrateSubcommand
deriving DecidableEq, Repr

/-- The speed the message requests for motor `i`, if any (the last
subcommand addressing `i` wins), already scaled to 0..100. -/
def requestedSpeed (msg : VibrateCmd) (i : Nat) : Option Nat :=
  match (msg.speeds.filter (fun sc => sc.index == i)).getLast? with
  | some sc => some (speedToStep sc.speed)
  | none => none

/-- Modelled from the spec: `GenericCommandManager::update_vibration`.
Rejects a motor-count mismatch with a structured device-message-error;
otherwise returns `none` when no motor's value changed, or
`some changes` with `changes[i] = some v` exactly for the motors whose
committed value changes, committing the new values (spec §4.1 items 1
and its failure clause). -/
def update_vibration (m : GenericCommandManager) (msg : VibrateCmd) :
    Except String (Option (List (Option Nat)) × GenericCommandManager) :=
  if msg.speeds.isEmpty || msg.speeds.any (fun sc => m.vibrations.length ≤ sc.index) then
    .error "device-message-error"
  else
    let changes : List (Option Nat) :=
      (List.range m.vibrations.length).map (fun i =>
        match requestedSpeed msg i with
        | some v => if m.vibrations.getD i none = some v then none else some v
        | none => none)
    if changes.all (·.isNone) then
      .ok (none, m)
    else
      let newVib : List (Option Nat) :=
        (List.range m.vibrations.length).map (fun i =>
          match requestedSpeed msg i with
          | some v => some v
          | none => m.vibrations.getD i none)
      .ok (some changes, ⟨newVib⟩)

/-- `cmds[i].unwrap_or(0) as u8` (indices used are in bounds for the
returned command vectors). -/
def cmdByte (cmds : List (Option Nat)) (i : Nat) : Nat :=
  ((cmds.getD i none).getD 0) % 256

/-- The 17-byte MagicMotionV4 frame from `handle_vibrate_cmd`: fixed
header, motor-0 block with its speed byte at offset 9, motor-1 block with
its speed byte at offset 14; with a single known motor value the second
block repeats the first. -/
def magicMotionV4Frame (cmds : List (Option Nat)) : List Nat :=
  if cmds.length == 1 then
    [0x10, 0xff, 0x04, 0x0a, 0x32, 0x32, 0x00,
     0x04, 0x08, cmdByte cmds 0, 0x64, 0x00,
     0x04, 0x08, cmdByte cmds 0, 0x64, 0x01]
  else
    [0x10, 0xff, 0x04, 0x0a, 0x32, 0x32, 0x00,
     0x04, 0x08, cmdByte cmds 0, 0x64, 0x00,
     0x04, 0x08, cmdByte cmds 1, 0x64, 0x01]

/-- `MagicMotionV4::handle_vibrate_cmd`: consult the command manager; on
`None` write nothing; on `Some(cmds)` perform exactly one
`write_value(HardwareWriteCmd::new(Endpoint::Tx, data, true))` with the
frame built from `cmds`.  Returns the performed writes and the updated
manager. -/
def handle_vibrate_cmd (m : GenericCommandManager) (msg : VibrateCmd) :
    Except String (List HardwareWriteCmd × GenericCommandManager) :=
  match update_vibration m msg with
  | .error e => .error e
  | .ok (none, m2) => .ok ([], m2)
  | .ok (some cmds, m2) => .ok ([⟨.Tx, magicMotionV4Frame cmds, true⟩], m2)

/-! ## Flag-discipline lemmas for the dongle machine -/

lemma waitForDongle_flag_eq :
    ∀ (inputs : List IncomingMessage) (flag b : Bool),
      (waitForDongleTransition flag b inputs).isScanning = flag := by
  intro inputs
  induction inputs with
  | nil => intro flag b; rfl
  | cons inp rest ih =>
    intro flag b
    cases inp with
    | CommMgr c =>
      cases c with
      | DongleFound => cases b <;> rfl
      | StartScanning => exact ih flag true
      | StopScanning => exact ih flag false
    | Dongle m => rfl
    | Device d => rfl
    | Disconnect => rfl

lemma idleLoop_flag_eq :
    ∀ (inputs : List IncomingMessage) (flag : Bool),
      (idleLoop flag inputs).isScanning = flag := by
  intro inputs
  induction inputs with
  | nil => intro flag; rfl
  | cons inp rest ih =>
    intro flag
    cases inp with
    | CommMgr c =>
      cases c with
      | DongleFound => exact ih flag
      | StartScanning => rfl
      | StopScanning => rfl
    | Dongle m =>
      obtain ⟨func, data, result⟩ := m
      cases func with
      | IncomingStatus =>
        cases data with
        | none => exact ih flag
        | some d =>
          obtain ⟨id, status⟩ := d
          cases status with
          | none => exact ih flag
          | some code =>
            cases code with
            | DeviceConnectSuccess => cases id <;> rfl
            | DeviceDisconnected => exact ih flag
            | SearchStopped => exact ih flag
      | Statuss => exact ih flag
      | Search => exact ih flag
      | StopSearch => exact ih flag
      | ToyData => exact ih flag
    | Device d => exact ih flag
    | Disconnect => rfl

lemma scanning_flag_eq :
    ∀ (inputs : List IncomingMessage) (flag : Bool),
      (scanningTransition flag inputs).isScanning = flag := by
  intro inputs
  induction inputs with
  | nil => intro flag; rfl
  | cons inp rest ih =>
    intro flag
    cases inp with
    | CommMgr c => exact ih flag
    | Dongle m =>
      obtain ⟨func, data, result⟩ := m
      cases func with
      | ToyData =>
        cases data with
        | none =>
          cases result with
          | none => exact ih flag
          | some r => rfl
        | some d =>
          obtain ⟨id, status⟩ := d
          cases id <;> rfl
      | Statuss => exact ih flag
      | IncomingStatus => exact ih flag
      | Search => exact ih flag
      | StopSearch => exact ih flag
    | Device d => exact ih flag
    | Disconnect => rfl

lemma deviceLoopLoop_flag_eq :
    ∀ (inputs : List IncomingMessage) (dOpen eOpen flag : Bool) (devId : String),
      (deviceLoopLoop ⟨dOpen, eOpen⟩ flag devId inputs).isScanning = flag := by
  intro inputs
  induction inputs with
  | nil => intro dOpen eOpen flag devId; rfl
  | cons inp rest ih =>
    intro dOpen eOpen flag devId
    cases inp with
    | CommMgr c =>
      cases c with
      | DongleFound => exact ih dOpen eOpen flag devId
      | StartScanning => cases eOpen with
        | true => exact ih dOpen true flag devId
        | false => rfl
      | StopScanning => cases eOpen with
        | true => exact ih dOpen true flag devId
        | false => rfl
    | Dongle m =>
      obtain ⟨func, data, result⟩ := m
      cases func with
      | IncomingStatus =>
        cases data with
        | none => exact ih dOpen eOpen flag devId
        | some d =>
          obtain ⟨id, status⟩ := d
          cases status with
          | none => exact ih dOpen eOpen flag devId
          | some code =>
            cases code with
            | DeviceDisconnected => rfl
            | DeviceConnectSuccess => exact ih dOpen eOpen flag devId
            | SearchStopped => exact ih dOpen eOpen flag devId
      | Statuss => exact ih dOpen eOpen flag devId
      | Search => exact ih dOpen eOpen flag devId
      | StopSearch => exact ih dOpen eOpen flag devId
      | ToyData => exact ih dOpen eOpen flag devId
    | Device d => cases dOpen with
      | true => exact ih true eOpen flag devId
      | false => rfl
    | Disconnect => rfl

lemma sscLoop_flag_clear_or_keep :
    ∀ (inputs : List IncomingMessage) (ctx : ChannelCtx) (flag : Bool) (devId : String),
      (sscLoop ctx flag devId inputs).isScanning = flag ∨
      (sscLoop ctx flag devId inputs).isScanning = false := by
  intro inputs
  induction inputs with
  | nil => intro ctx flag devId; left; rfl
  | cons inp rest ih =>
    intro ctx flag devId
    cases inp with
    | CommMgr c => exact ih ctx flag devId
    | Dongle m =>
      obtain ⟨func, data, result⟩ := m
      cases func with
      | Search =>
        cases result with
        | none => exact ih ctx flag devId
        | some code =>
          cases code with
          | SearchStopped =>
            obtain ⟨dOpen, eOpen⟩ := ctx
            cases eOpen <;> right <;> rfl
          | DeviceConnectSuccess => exact ih ctx flag devId
          | DeviceDisconnected => exact ih ctx flag devId
      | Statuss => exact ih ctx flag devId
      | IncomingStatus => exact ih ctx flag devId
      | StopSearch => exact ih ctx flag devId
      | ToyData => exact ih ctx flag devId
    | Device d => exact ih ctx flag devId
    | Disconnect => left; rfl

/-! ## Claim theorems: dongle state machine -/

/-- C1 counterexample.  The claim states the scanning flag is true exactly
when the live state is `Scanning` or `StopScanningAndConnect`, and that
the `Scanning` → `Idle` transition on a result-only `ToyData` clears the
flag.  This concrete reachable execution refutes it: starting from
`WaitForDongle` with the flag `false`, after `StartScanning`,
`DongleFound` and a result-only `ToyData`, the machine awaits input in
`Idle` while the scanning flag is still `true` — the `Scanning` → `Idle`
transition never touched the flag. -/
theorem c1_scanning_flag_counterexample :
    (run ctxOpen 10 .waitForDongle false
      [.CommMgr .StartScanning, .CommMgr .DongleFound,
       .Dongle ⟨.ToyData, none, some .SearchStopped⟩]) =
    ⟨.blocked .idle, true, [],
      ⟨[.Message searchMsg, .Message autoconnectMsg], [], []⟩⟩ := by
  rfl

/-- C1 amended.  The scanning flag is set `true` on entering
`StartScanning` (before the machine reaches `Scanning`) and is set
`false` only by the `StopScanning` state and by `StopScanningAndConnect`
after the `SearchStopped` ack; the loops of `WaitForDongle`, `Idle`,
`Scanning` and `DeviceLoop` never change it — in particular the
transitions leaving `Scanning` (to `Idle` on a result-only `ToyData`, or
to `WaitForDongle` on disconnect) leave the flag as it was, so the flag
can remain `true` in `Idle` or `WaitForDongle`. -/
theorem c1_scanning_flag_amended :
    (∀ (inputs : List IncomingMessage) (flag b : Bool),
      (waitForDongleTransition flag b inputs).isScanning = flag) ∧
    (∀ (inputs : List IncomingMessage) (flag : Bool),
      (idleLoop flag inputs).isScanning = flag) ∧
    (∀ (inputs : List IncomingMessage) (flag : Bool),
      (scanningTransition flag inputs).isScanning = flag) ∧
    (∀ (inputs : List IncomingMessage) (dOpen eOpen flag : Bool) (devId : String),
      (deviceLoopLoop ⟨dOpen, eOpen⟩ flag devId inputs).isScanning = flag) ∧
    (∀ (ctx : ChannelCtx) (flag : Bool) (inputs : List IncomingMessage),
      (startScanningTransition ctx flag inputs).isScanning = true) ∧
    (∀ (flag : Bool) (inputs : List IncomingMessage),
      (stopScanningTransition ctxOpen flag inputs).isScanning = false) ∧
    (∀ (inputs : List IncomingMessage) (ctx : ChannelCtx) (flag : Bool) (devId : String),
      (sscLoop ctx flag devId inputs).isScanning = flag ∨
      (sscLoop ctx flag devId inputs).isScanning = false) := by
  refine ⟨waitForDongle_flag_eq, idleLoop_flag_eq, scanning_flag_eq,
    deviceLoopLoop_flag_eq, ?_, ?_, sscLoop_flag_clear_or_keep⟩
  · intro ctx flag inputs
    obtain ⟨dOpen, eOpen⟩ := ctx
    cases dOpen <;> rfl
  · intro flag inputs
    rfl

/-- C2.  The scan-find-connect scenario: from `WaitForDongle`, feeding
`DongleFound` then `StartScanning` makes the machine write `Search`/`Toy`
(after the `Idle` probe); a `ToyData` carrying `data.id = "xyz"` moves it
to `StopScanningAndConnect("xyz")`, which writes `StopSearch`/`USB`,
waits for the `Search` ack with result `SearchStopped`, emits
`ScanningFinished` and then `DeviceFound("xyz")`, and enters
`DeviceLoop("xyz")`. -/
theorem c2_scan_find_connect :
    (run ctxOpen 10 .waitForDongle false
      [.CommMgr .DongleFound, .CommMgr .StartScanning,
       .Dongle ⟨.ToyData, some ⟨some "xyz", none⟩, none⟩,
       .Dongle ⟨.Search, none, some .SearchStopped⟩]) =
    ⟨.blocked (.deviceLoop "xyz"), false, [],
      ⟨[.Message autoconnectMsg, .Message searchMsg, .Message stopSearchMsg],
       [.ScanningFinished, .DeviceFound "xyz"], []⟩⟩ := by
  rfl

/-- C5 counterexample.  The claim says every external `StopScanning`
command causes exactly one `ScanningFinished` event no matter which state
receives it, `Scanning` included.  In `Scanning` the command is logged
and discarded: consuming it emits no output and no event and leaves
the machine awaiting input in `Scanning`. -/
theorem c5_stop_scanning_event_counterexample :
    scanningTransition true [.CommMgr .StopScanning] =
    ⟨.blocked .scanning, true, [], .empty⟩ := by
  rfl

/-- C5 amended.  A `StopScanning` command produces exactly one
`ScanningFinished` event when received in `Idle` (via the `StopScanning`
state) or in `DeviceLoop`; in `Scanning` it is discarded with no event,
and in `WaitForDongle` it only clears the local latch with no event. -/
theorem c5_stop_scanning_event_amended :
    (∀ (flag : Bool),
      run ctxOpen 2 .idle flag [.CommMgr .StopScanning] =
      ⟨.done, false, [],
        ⟨[.Message autoconnectMsg, .Message stopSearchMsg],
         [.ScanningFinished], []⟩⟩) ∧
    (∀ (dOpen flag : Bool) (devId : String),
      deviceLoopLoop ⟨dOpen, true⟩ flag devId [.CommMgr .StopScanning] =
      ⟨.blocked (.deviceLoop devId), flag, [], ⟨[], [.ScanningFinished], []⟩⟩) ∧
    (∀ (flag : Bool),
      scanningTransition flag [.CommMgr .StopScanning] =
      ⟨.blocked .scanning, flag, [], .empty⟩) ∧
    (∀ (flag b : Bool),
      waitForDongleTransition flag b [.CommMgr .StopScanning] =
      ⟨.blocked .waitForDongle, flag, [], .empty⟩) := by
  exact ⟨fun flag => rfl, fun dOpen flag devId => rfl,
    fun flag => rfl, fun flag b => rfl⟩

/-- C9.  While in the `DeviceLoop` select loop, an external
`StartScanning` or `StopScanning` command emits exactly one
`ScanningFinished` event, performs no dongle write and no other event,
and leaves the machine awaiting input in `DeviceLoop` with the same
device id. -/
theorem c9_device_loop_scan_commands :
    ∀ (dOpen flag : Bool) (devId : String),
      deviceLoopLoop ⟨dOpen, true⟩ flag devId [.CommMgr .StartScanning] =
        ⟨.blocked (.deviceLoop devId), flag, [], ⟨[], [.ScanningFinished], []⟩⟩ ∧
      deviceLoopLoop ⟨dOpen, true⟩ flag devId [.CommMgr .StopScanning] =
        ⟨.blocked (.deviceLoop devId), flag, [], ⟨[], [.ScanningFinished], []⟩⟩ := by
  exact fun dOpen flag devId => ⟨rfl, rfl⟩

/-- C10.  With the dongle-write channel closed, every state that calls
`send_output` (`Idle` on its probe, `StartScanning`, `StopScanning`,
`StopScanningAndConnect`) panics; with the event channel closed, the
states that call `send_event` (`StopScanning` after its write,
`DeviceLoop` on entry) panic.  Closure of an inbound channel, by
contrast, is delivered as `Disconnect` and handled as a reset to
`WaitForDongle` (or termination in `WaitForDongle` itself), never as a
panic. -/
theorem c10_outbound_channel_panic :
    (∀ (e flag : Bool) (inputs : List IncomingMessage),
      (idleTransition ⟨false, e⟩ flag inputs).outcome = .panicked) ∧
    (∀ (e flag : Bool) (inputs : List IncomingMessage),
      (startScanningTransition ⟨false, e⟩ flag inputs).outcome = .panicked) ∧
    (∀ (e flag : Bool) (inputs : List IncomingMessage),
      (stopScanningTransition ⟨false, e⟩ flag inputs).outcome = .panicked) ∧
    (∀ (flag : Bool) (inputs : List IncomingMessage),
      (stopScanningTransition ⟨true, false⟩ flag inputs).outcome = .panicked) ∧
    (∀ (e flag : Bool) (devId : String) (inputs : List IncomingMessage),
      (stopScanningAndConnectTransition ⟨false, e⟩ flag devId inputs).outcome = .panicked) ∧
    (∀ (d flag : Bool) (devId : String) (inputs : List IncomingMessage),
      (deviceLoopTransition ⟨d, false⟩ flag devId inputs).outcome = .panicked) ∧
    (∀ (flag : Bool) (rest : List IncomingMessage),
      idleLoop flag (.Disconnect :: rest) = ⟨.next .waitForDongle, flag, rest, .empty⟩) ∧
    (∀ (flag : Bool) (rest : List IncomingMessage),
      scanningTransition flag (.Disconnect :: rest) = ⟨.next .waitForDongle, flag, rest, .empty⟩) ∧
    (∀ (ctx : ChannelCtx) (flag : Bool) (devId : String) (rest : List IncomingMessage),
      sscLoop ctx flag devId (.Disconnect :: rest) = ⟨.next .waitForDongle, flag, rest, .empty⟩) ∧
    (∀ (ctx : ChannelCtx) (flag : Bool) (devId : String) (rest : List IncomingMessage),
      deviceLoopLoop ctx flag devId (.Disconnect :: rest) = ⟨.next .waitForDongle, flag, rest, .empty⟩) ∧
    (∀ (flag b : Bool) (rest : List IncomingMessage),
      waitForDongleTransition flag b (.Disconnect :: rest) = ⟨.done, flag, rest, .empty⟩) := by
  exact ⟨fun e flag inputs => rfl, fun e flag inputs => rfl,
    fun e flag inputs => rfl, fun flag inputs => rfl,
    fun e flag devId inputs => rfl, fun d flag devId inputs => rfl,
    fun flag rest => rfl, fun flag rest => rfl,
    fun ctx flag devId rest => rfl, fun ctx flag devId rest => rfl,
    fun flag b rest => rfl⟩

/-! ## Poller lemmas for the gamepad tracker -/

lemma checkSweep_stored_ne_zero :
    ∀ (idxList : List XInputControllerIndex)
      (apiErr : XInputControllerIndex → Bool) (hasSender : Bool)
      (gamepads stored : Nat) (evs : List GamepadEvent),
      stored ≠ 0 →
      (checkSweep apiErr hasSender gamepads idxList stored evs).earlyReturn = false →
      (checkSweep apiErr hasSender gamepads idxList stored evs).stored ≠ 0 := by
  intro idxList
  induction idxList with
  | nil => intro a hs g stored evs h hret; exact h
  | cons i restIdx ih =>
    intro a hs g stored evs h hret
    by_cases hbit : (g &&& (1 <<< i.toU8) == 0) = true
    · have heq : checkSweep a hs g (i :: restIdx) stored evs =
          checkSweep a hs g restIdx stored evs := by
        simp [checkSweep, hbit]
      rw [heq] at hret ⊢
      exact ih a hs g stored evs h hret
    · by_cases herr : (a i) = true
      · by_cases hz : (g &&& (255 ^^^ (1 <<< i.toU8)) == 0) = true
        · have heq : (checkSweep a hs g (i :: restIdx) stored evs).earlyReturn = true := by
            simp [checkSweep, hbit, herr, hz]
          rw [heq] at hret
          exact absurd hret (by simp)
        · have heq : checkSweep a hs g (i :: restIdx) stored evs =
              checkSweep a hs g restIdx (g &&& (255 ^^^ (1 <<< i.toU8)))
                (if hs = true then evs ++ [.Disconnected (create_address i)] else evs) := by
            simp [checkSweep, hbit, herr, hz]
          rw [heq] at hret ⊢
          exact ih a hs g _ _ (by simpa using hz) hret
      · have heq : checkSweep a hs g (i :: restIdx) stored evs =
            checkSweep a hs g restIdx stored evs := by
          simp [checkSweep, hbit, herr]
        rw [heq] at hret ⊢
        exact ih a hs g stored evs h hret

lemma checkLoop_exited_flag :
    ∀ (fuel : Nat) (apiErr : Nat → XInputControllerIndex → Bool)
      (hasSender : Bool) (sweepNo stored : Nat) (evs : List GamepadEvent),
      stored ≠ 0 →
      (checkLoop apiErr hasSender fuel sweepNo stored evs).exited = true →
      (checkLoop apiErr hasSender fuel sweepNo stored evs).check_running = false := by
  intro fuel
  induction fuel with
  | zero =>
    intro a hs sn stored evs h hex
    simp [checkLoop] at hex
  | succ n ih =>
    intro a hs sn stored evs h hex
    have h0 : (stored == 0) = false := by simpa using h
    by_cases hret : (checkSweep (a sn) hs stored allIndices stored evs).earlyReturn = true
    · have heq : (checkLoop a hs (n + 1) sn stored evs).check_running = false := by
        simp [checkLoop, h0, hret]
      exact heq
    · have heq : checkLoop a hs (n + 1) sn stored evs =
          checkLoop a hs n (sn + 1)
            (checkSweep (a sn) hs stored allIndices stored evs).stored
            (checkSweep (a sn) hs stored allIndices stored evs).events := by
        simp [checkLoop, h0, hret]
      rw [heq] at hex ⊢
      exact ih a hs (sn + 1) _ _
        (checkSweep_stored_ne_zero allIndices (a sn) hs stored stored evs h
          (by simpa using hret)) hex

/-! ## Claim theorems: gamepad tracker -/

/-- C6 counterexample.  The claim says the textual address of a gamepad
slot is the 1-based slot number as a decimal string, so internal slot 2
would yield `"3"`.  In the source `create_address` is `index.to_string()`
through the derived `Display` of the fieldless enum, which renders the
variant name: slot 2 yields `"XInputController3"`, not `"3"`. -/
theorem c6_address_counterexample :
    create_address .XInputController3 = "XInputController3" ∧
    create_address .XInputController3 ≠ "3" := by
  exact ⟨rfl, by decide⟩

/-- C6 amended.  The textual address is the enum variant name:
the string `"XInputController"` followed by the 1-based slot number in
decimal — not the bare decimal number. -/
theorem c6_address_amended :
    ∀ (index : XInputControllerIndex),
      create_address index = "XInputController" ++ toString (index.toU8 + 1) := by
  intro index
  cases index <;> rfl

/-- C7 counterexample.  The claim says both `add` and `add_with_sender`
decide to start the poller by `(bitmap_was_zero) && (!is_polling)`.  With
the bitmap zero and the is-polling flag set, `add` does not spawn but
`add_with_sender` does - so `add_with_sender` cannot be computing that
conjunction. -/
theorem c7_poller_start_counterexample :
    (XInputConnectionTracker.add ⟨0, true⟩ .XInputController1).spawned = false ∧
    (XInputConnectionTracker.add_with_sender ⟨0, true⟩ .XInputController1).spawned = true := by
  exact ⟨rfl, rfl⟩

/-- C7 amended.  `add` decides `(bitmap_was_zero) && (!is_polling)`;
`add_with_sender` decides `bitmap_was_zero` alone, ignoring the
is-polling flag. -/
theorem c7_poller_start_amended :
    ∀ (t : XInputConnectionTracker) (index : XInputControllerIndex),
      (t.add index).spawned = (t.connected_gamepads == 0 && !t.check_running) ∧
      (t.add_with_sender index).spawned = (t.connected_gamepads == 0) := by
  exact fun t index => ⟨rfl, rfl⟩

/-- C8 counterexample.  The claim says a zero bitmap snapshot makes the
poller clear the is-polling flag and exit, so an exited poller always
leaves the flag false.  Running the poller on a zero bitmap exits
through the `break` path with the flag still `true` (it was stored
`true` on entry and the break path never clears it). -/
theorem c8_poller_exit_counterexample :
    check_gamepad_connectivity (fun _ _ => false) false 5 0 =
      ⟨0, true, [], true⟩ := by
  rfl

/-- C8 amended.  On a zero snapshot the poller exits immediately but
leaves the is-polling flag `true`; the flag is cleared exactly on the
inner path where clearing a slot bit empties the bitmap, so a poller
started with a non-zero bitmap that exits does leave the flag false. -/
theorem c8_poller_exit_amended :
    (∀ (apiErr : Nat → XInputControllerIndex → Bool) (hasSender : Bool) (fuel : Nat),
      check_gamepad_connectivity apiErr hasSender (fuel + 1) 0 = ⟨0, true, [], true⟩) ∧
    (∀ (apiErr : Nat → XInputControllerIndex → Bool) (hasSender : Bool)
       (fuel connected : Nat),
      connected ≠ 0 →
      (check_gamepad_connectivity apiErr hasSender fuel connected).exited = true →
      (check_gamepad_connectivity apiErr hasSender fuel connected).check_running = false) := by
  constructor
  · intro apiErr hasSender fuel
    rfl
  · intro apiErr hasSender fuel connected h hex
    exact checkLoop_exited_flag fuel apiErr hasSender 0 connected [] h hex

/-- C8 amended, witness: a poller started on bitmap 5 (slots 0 and 2)
whose `get_state` calls all fail exits with the is-polling flag false. -/
theorem c8_poller_exit_amended_witness :
    (5 : Nat) ≠ 0 ∧
    (check_gamepad_connectivity (fun _ _ => true) true 3 5).exited = true ∧
    (check_gamepad_connectivity (fun _ _ => true) true 3 5).check_running = false := by
  refine ⟨by decide, by rfl, ?_⟩
  exact c8_poller_exit_amended.2 (fun _ _ => true) true 3 5 (by decide) (by rfl)

/-! ## Helper lemmas for the MagicMotionV4 handler -/

lemma speedToStep_half : speedToStep (1/2) = 50 := by
  have h : round ((1/2 : ℚ) * 100) = 50 := by norm_num [round_eq]
  show (round ((1/2 : ℚ) * 100)).toNat = 50
  rw [h]
  rfl

lemma getD_replicate_none (n i : Nat) :
    (List.replicate n (none : Option Nat)).getD i none = none := by
  rcases Nat.lt_or_ge i n with h | h
  · rw [List.getD_eq_getElem _ _ (by simpa using h)]
    simp
  · rw [List.getD_eq_default _ _ (by simpa using h)]

lemma requestedSpeed_isSome_of_mem (msg : VibrateCmd) (sc : VibrateSubcommand)
    (hsc : sc ∈ msg.speeds) : (requestedSpeed msg sc.index).isSome = true := by
  unfold requestedSpeed
  have hne : msg.speeds.filter (fun x => x.index == sc.index) ≠ [] :=
    List.ne_nil_of_mem (List.mem_filter.mpr ⟨hsc, by simp⟩)
  obtain ⟨x, hx⟩ := Option.isSome_iff_exists.mp (List.getLast?_isSome.mpr hne)
  rw [hx]
  rfl

/-- First call on a manager with no prior committed state: every motor
addressed by the message counts as changed (its committed value is
`none`), every other motor stays `none`, and the new committed state is
the requested speeds. -/
lemma update_vibration_fresh (n : Nat) (msg : VibrateCmd)
    (h1 : msg.speeds ≠ []) (h2 : ∀ sc ∈ msg.speeds, sc.index < n) :
    update_vibration (freshManager n) msg =
      .ok (some ((List.range n).map fun i => requestedSpeed msg i),
           ⟨(List.range n).map fun i => requestedSpeed msg i⟩) := by
  have hempty : msg.speeds.isEmpty = false := by
    cases hm : msg.speeds with
    | nil => exact absurd hm h1
    | cons a l => rfl
  have hany : (msg.speeds.any fun sc => n ≤ sc.index) = false := by
    rw [Bool.eq_false_iff]
    intro hcon
    obtain ⟨sc, hsc, hle⟩ := List.any_eq_true.mp hcon
    exact absurd (h2 sc hsc) (Nat.not_lt.mpr (by simpa using hle))
  simp only [update_vibration, freshManager, List.length_replicate]
  rw [if_neg (by simp [hempty, hany])]
  have hchanges : ((List.range n).map fun i =>
      match requestedSpeed msg i with
      | some v => if (List.replicate n (none : Option Nat)).getD i none = some v
                  then none else some v
      | none => none) = (List.range n).map fun i => requestedSpeed msg i := by
    apply List.map_congr_left
    intro i hi
    cases hreq : requestedSpeed msg i with
    | none => simp
    | some v => simp [getD_replicate_none]
  rw [hchanges]
  have hnotall : (((List.range n).map fun i => requestedSpeed msg i).all
      (·.isNone)) = false := by
    obtain ⟨sc, hsc⟩ := List.exists_mem_of_ne_nil msg.speeds h1
    have hmem : requestedSpeed msg sc.index ∈
        (List.range n).map fun i => requestedSpeed msg i :=
      List.mem_map_of_mem _ (List.mem_range.mpr (h2 sc hsc))
    rw [Bool.eq_false_iff]
    intro hall
    have hnone := List.all_eq_true.mp hall _ hmem
    have hs := requestedSpeed_isSome_of_mem msg sc hsc
    rw [Option.isNone_iff_eq_none.mp hnone] at hs
    simp at hs
  rw [if_neg (by simp [hnotall])]
  have hnew : ((List.range n).map fun i =>
      match requestedSpeed msg i with
      | some v => some v
      | none => (List.replicate n (none : Option Nat)).getD i none) =
      (List.range n).map fun i => requestedSpeed msg i := by
    apply List.map_congr_left
    intro i hi
    cases hreq : requestedSpeed msg i with
    | none => simp [getD_replicate_none]
    | some v => simp
  rw [hnew]

/-- Repeating a message against the state it just committed changes no
motor: the manager answers `none`. -/
lemma update_vibration_committed (n : Nat) (msg : VibrateCmd)
    (h1 : msg.speeds ≠ []) (h2 : ∀ sc ∈ msg.speeds, sc.index < n) :
    update_vibration ⟨(List.range n).map fun i => requestedSpeed msg i⟩ msg =
      .ok (none, ⟨(List.range n).map fun i => requestedSpeed msg i⟩) := by
  have hempty : msg.speeds.isEmpty = false := by
    cases hm : msg.speeds with
    | nil => exact absurd hm h1
    | cons a l => rfl
  have hany : (msg.speeds.any fun sc => n ≤ sc.index) = false := by
    rw [Bool.eq_false_iff]
    intro hcon
    obtain ⟨sc, hsc, hle⟩ := List.any_eq_true.mp hcon
    exact absurd (h2 sc hsc) (Nat.not_lt.mpr (by simpa using hle))
  simp only [update_vibration, List.length_map, List.length_range]
  rw [if_neg (by simp [hempty, hany])]
  have hall : (((List.range n).map fun i =>
      match requestedSpeed msg i with
      | some v => if ((List.range n).map fun j => requestedSpeed msg j).getD i none = some v
                  then none else some v
      | none => none).all (·.isNone)) = true := by
    apply List.all_eq_true.mpr
    intro x hx
    obtain ⟨i, hi, hfx⟩ := List.mem_map.mp hx
    rw [← hfx]
    cases hreq : requestedSpeed msg i with
    | none => simp
    | some v =>
      have hi2 : i < n := List.mem_range.mp hi
      simp [List.getElem?_range hi2, hreq]
  rw [if_pos (by simpa using hall)]

/-! ## Claim theorems: MagicMotionV4 handler -/

/-- C3.  On a two-motor device with no prior committed state,
`handle_vibrate_cmd` applied to `Vibrate([{motor 0, speed 0.5}])`
performs exactly one write to the `Tx` endpoint whose payload is the
17-byte frame `10 FF 04 0A 32 32 00 04 08 32 64 00 04 08 00 64 01` - the
changed motor byte `0x32` at offset 9 and the unchanged motor byte
`0x00` at offset 14. -/
theorem c3_vibrate_half_frame :
    handle_vibrate_cmd (freshManager 2) ⟨[⟨0, 1/2⟩]⟩ =
      .ok ([⟨.Tx, [0x10, 0xff, 0x04, 0x0a, 0x32, 0x32, 0x00, 0x04, 0x08, 0x32,
        0x64, 0x00, 0x04, 0x08, 0x00, 0x64, 0x01], true⟩], ⟨[some 50, none]⟩) := by
  have hreq0 : requestedSpeed ⟨[⟨0, 1/2⟩]⟩ 0 = some 50 := by
    rw [show requestedSpeed ⟨[⟨0, 1/2⟩]⟩ 0 = some (speedToStep (1/2)) from rfl,
      speedToStep_half]
  have hreq1 : requestedSpeed ⟨[⟨0, 1/2⟩]⟩ 1 = none := rfl
  simp only [handle_vibrate_cmd, update_vibration, freshManager, List.length_replicate,
    List.range_succ, List.range_zero, List.nil_append, List.map_append, List.map_cons,
    List.map_nil, hreq0, hreq1]
  rfl

/-- C4.  Idempotence on repeats: for a device with any motor count and
any valid vibrate command, issuing the command twice from a manager with
no prior committed state produces exactly one wire frame; the second
call, for which the command manager reports no change (`none`), performs
no device write and leaves the committed state untouched. -/
theorem c4_vibrate_idempotent (n : Nat) (msg : VibrateCmd)
    (h1 : msg.speeds ≠ [])
    (h2 : ∀ sc ∈ msg.speeds, sc.index < n) :
    ∃ w m2, handle_vibrate_cmd (freshManager n) msg = .ok ([w], m2) ∧
            handle_vibrate_cmd m2 msg = .ok ([], m2) := by
  refine ⟨⟨.Tx, magicMotionV4Frame ((List.range n).map fun i => requestedSpeed msg i),
    true⟩, ⟨(List.range n).map fun i => requestedSpeed msg i⟩, ?_, ?_⟩
  · unfold handle_vibrate_cmd
    rw [update_vibration_fresh n msg h1 h2]
  · unfold handle_vibrate_cmd
    rw [update_vibration_committed n msg h1 h2]

/-- C4 witness: the vibrate-at-0.5 command on a fresh two-motor device
satisfies the hypotheses, so the pair of calls produces exactly one
frame. -/
theorem c4_vibrate_idempotent_witness :
    (([⟨0, 1/2⟩] : List VibrateSubcommand) ≠ [] ∧
      ∀ sc ∈ ([⟨0, 1/2⟩] : List VibrateSubcommand), sc.index < 2) ∧
    ∃ w m2, handle_vibrate_cmd (freshManager 2) ⟨[⟨0, 1/2⟩]⟩ = .ok ([w], m2) ∧
            handle_vibrate_cmd m2 ⟨[⟨0, 1/2⟩]⟩ = .ok ([], m2) := by
  exact ⟨⟨by decide, by decide⟩,
    c4_vibrate_idempotent 2 ⟨[⟨0, 1/2⟩]⟩ (by decide) (by decide)⟩
